import Mathlib

/-!
Verification development for the kindle-sender repository.

Shallow embedding of the core of the program:
  models/azure.rs      (TokenResponse, is_token_valid)
  models/kindle.rs     (Email payload structures)
  models/error.rs      (KindleError)
  services/azure_service.rs  (AzureService::authenticate and its helpers)
  services/kindle_service.rs (KindleService::send_file)
  services/send_service.rs   (SendService::send_files)
  main.rs / commands/send.rs (process exit contract)

External effects (filesystem reads and writes, HTTP calls, the local
callback listener) are passed in explicitly through environment records,
and each operation returns its value together with a record of the side
effects it performed.
-/

set_option maxHeartbeats 1000000

deriving instance DecidableEq for Except

namespace KindleSender

/-- models/error.rs: the single error type of the application. -/
structure KindleError where
  message : String
  deriving DecidableEq

/-- models/azure.rs lines 9-23: response structure from the OAuth token
endpoint, also the shape persisted to the credential file. The field
expires_in is a u32 in the source, embedded as Nat; expires_at is i64,
embedded as Int. -/
structure TokenResponse where
  access_token : String
  refresh_token : Option String
  id_token : Option String
  expires_in : Nat
  token_type : String
  expires_at : Option Int
  deriving DecidableEq

/-- models/azure.rs lines 31-37: the token is valid when expires_at is
present and the current time is strictly below it; a missing expires_at
yields false. The call to Utc::now().timestamp() is passed in as now. -/
def TokenResponse.is_token_valid (t : TokenResponse) (now : Int) : Bool :=
  match t.expires_at with
  | some e => decide (now < e)
  | none => false

/-- models/kindle.rs: email address of a recipient. -/
structure EmailAddress where
  address : String
  deriving DecidableEq

/-- models/kindle.rs: one recipient of the email. -/
structure Recipient where
  email_address : EmailAddress
  deriving DecidableEq

/-- models/kindle.rs: body of the email message. -/
structure Body where
  content_type : String
  content : String
  deriving DecidableEq

/-- models/kindle.rs lines 58-70: one attachment; content_bytes holds the
base64 encoding of the file content. -/
structure Attachment where
  odata_type : String
  name : String
  content_type : String
  content_bytes : String
  deriving DecidableEq

/-- models/kindle.rs lines 19-29: the email message. -/
structure Message where
  subject : String
  body : Body
  to_recipients : List Recipient
  attachments : List Attachment
  deriving DecidableEq

/-- models/kindle.rs lines 9-15: the full payload POSTed to the gateway. -/
structure Email where
  message : Message
  save_to_sent_items : Bool
  deriving DecidableEq

/-- Character of the standard base64 alphabet for a sextet value, as used
by the base64 crate STANDARD engine invoked at kindle_service.rs line 59:
A-Z for 0-25, a-z for 26-51, 0-9 for 52-61, then + and /. -/
def b64Char (n : Nat) : Char :=
  if n < 26 then Char.ofNat (65 + n)
  else if n < 52 then Char.ofNat (97 + (n - 26))
  else if n < 62 then Char.ofNat (48 + (n - 52))
  else if n = 62 then '+'
  else '/'

/-- Inverse of the standard base64 alphabet: sextet value of a character,
none for a character outside the alphabet (including the pad =). -/
def b64DecChar (c : Char) : Option Nat :=
  let n := c.toNat
  if 65 ≤ n ∧ n ≤ 90 then some (n - 65)
  else if 97 ≤ n ∧ n ≤ 122 then some (n - 97 + 26)
  else if 48 ≤ n ∧ n ≤ 57 then some (n - 48 + 52)
  else if n = 43 then some 62
  else if n = 47 then some 63
  else none

/-- Standard base64 encoding with = padding (RFC 4648), the encoding
performed on the file bytes at kindle_service.rs line 59. Bytes are
embedded as Nat values below 256. -/
def base64Encode : List Nat → List Char
  | [] => []
  | [b1] => [b64Char (b1 / 4), b64Char (b1 % 4 * 16), '=', '=']
  | [b1, b2] =>
      [b64Char (b1 / 4), b64Char (b1 % 4 * 16 + b2 / 16), b64Char (b2 % 16 * 4), '=']
  | b1 :: b2 :: b3 :: rest =>
      b64Char (b1 / 4) :: b64Char (b1 % 4 * 16 + b2 / 16) ::
        b64Char (b2 % 16 * 4 + b3 / 64) :: b64Char (b3 % 64) :: base64Encode rest

/-- Modelled from the spec: the repository itself never decodes base64;
the round-trip property of the spec names the standard-alphabet decoder,
given here per RFC 4648 (strict: padding only at the very end). -/
def base64Decode : List Char → Option (List Nat)
  | [] => some []
  | c1 :: c2 :: c3 :: c4 :: rest =>
    if c3 = '=' ∧ c4 = '=' ∧ rest = [] then
      (b64DecChar c1).bind fun s1 =>
        (b64DecChar c2).bind fun s2 =>
          if s2 % 16 = 0 then some [s1 * 4 + s2 / 16] else none
    else if c4 = '=' ∧ rest = [] then
      (b64DecChar c1).bind fun s1 =>
        (b64DecChar c2).bind fun s2 =>
          (b64DecChar c3).bind fun s3 =>
            if s3 % 4 = 0 then
              some [s1 * 4 + s2 / 16, s2 % 16 * 16 + s3 / 4]
            else none
    else
      (b64DecChar c1).bind fun s1 =>
        (b64DecChar c2).bind fun s2 =>
          (b64DecChar c3).bind fun s3 =>
            (b64DecChar c4).bind fun s4 =>
              (base64Decode rest).bind fun tail =>
                some ((s1 * 4 + s2 / 16) :: (s2 % 16 * 16 + s3 / 4)
                  :: (s3 % 4 * 64 + s4) :: tail)
  | _ => none

/-- Environment of one call to AzureService::authenticate: the results the
outside world would hand to each effectful step, should that step run.
readResult is the outcome of read_token_from_file (azure_service.rs lines
235-245), now the value of Utc::now().timestamp() at the validity check,
refreshResult the outcome of the refresh_access_token POST (lines 199-224),
authCodeResult the outcome of awaiting the oneshot channel fed by the
callback route (lines 108-130), exchangeResult the outcome of the
exchange_code_for_token POST (lines 161-188), exchangeTime the value of
Utc::now().timestamp() at the expiry stamp (line 141), and writeResult the
outcome of write_token_to_file (lines 257-268). -/
structure AuthEnv where
  readResult : Except String TokenResponse
  now : Int
  refreshResult : Except String TokenResponse
  authCodeResult : Except Unit String
  exchangeResult : Except String TokenResponse
  exchangeTime : Int
  writeResult : Except String Unit

/-- Observable outcome of AzureService::authenticate: the returned value
and the side effects performed — credentials successfully persisted to the
auth file, whether the refresh POST was made, whether the code-exchange
POST was made, and whether the local warp listener was spawned. -/
structure AuthOutcome where
  result : Except KindleError String
  writes : List TokenResponse
  refreshCalled : Bool
  exchangeCalled : Bool
  listenerStarted : Bool
  deriving DecidableEq

namespace AzureService

/-- azure_service.rs lines 96-148: the interactive authorization-code flow
reached when no cached credential path returned. The warp server is spawned
(line 125) before the code is awaited, so listenerStarted is true on every
outcome of this flow. On a successful exchange the expiry is stamped as
exchangeTime + expires_in (line 141) before the credential is persisted. -/
def interactiveFlow (env : AuthEnv) : AuthOutcome :=
  match env.authCodeResult with
  | .error _ =>
      ⟨.error ⟨"Failed to receive auth code"⟩, [], false, false, true⟩
  | .ok _code =>
    match env.exchangeResult with
    | .error e =>
        ⟨.error ⟨"Error exchanging code for token: " ++ e⟩, [], false, true, true⟩
    | .ok tr =>
      let stamped : TokenResponse :=
        ⟨tr.access_token, tr.refresh_token, tr.id_token, tr.expires_in,
          tr.token_type, some (env.exchangeTime + (tr.expires_in : Int))⟩
      match env.writeResult with
      | .ok _ =>
          ⟨.ok stamped.access_token, [stamped], false, true, true⟩
      | .error e =>
          ⟨.error ⟨"Error writing token to file: " ++ e⟩, [], false, true, true⟩

/-- azure_service.rs lines 71-149: three-tier resolution. If the auth file
reads back a credential: a still-valid one is returned at once (line 79);
an expired one with a refresh token triggers refresh_access_token, whose
failure is propagated as an error by the question-mark operator (lines
82-86) — control does NOT continue to the interactive flow; an expired one
without a refresh token, or an unreadable auth file, falls to the
interactive flow. The refreshed credential is persisted exactly as the
token endpoint returned it: no expiry stamp is applied on this path. -/
def authenticate (env : AuthEnv) : AuthOutcome :=
  match env.readResult with
  | .ok tr =>
    if tr.is_token_valid env.now then
      ⟨.ok tr.access_token, [], false, false, false⟩
    else
      match tr.refresh_token with
      | some _rt =>
        match env.refreshResult with
        | .ok ntr =>
          match env.writeResult with
          | .ok _ => ⟨.ok ntr.access_token, [ntr], true, false, false⟩
          | .error e =>
              ⟨.error ⟨"Error writing token to file: " ++ e⟩, [], true, false, false⟩
        | .error e =>
            ⟨.error ⟨"Error refreshing token: " ++ e⟩, [], true, false, false⟩
      | none => interactiveFlow env
  | .error _ => interactiveFlow env

end AzureService

/-- kindle_service.rs lines 61-67: the attachment filename is the final
segment of the path split on the slash character; the ok_or_else branch
yields a SendError when next_back finds no segment. -/
def filename_from_path (file_path : String) : Except KindleError String :=
  match (file_path.splitOn "/").getLast? with
  | some s => .ok s
  | none => .error ⟨"Failed to get filename from file path"⟩

/-- Environment of one call to KindleService::send_file: fileContent is
the outcome of the File::open plus read_to_end steps (kindle_service.rs
lines 52-58) with their error mapping already applied; gatewayStatus and
gatewayBody describe the HTTP response of the sendMail POST, should it be
made. -/
structure SendFileEnv where
  fileContent : Except KindleError (List Nat)
  gatewayStatus : Nat
  gatewayBody : String

/-- Observable outcome of KindleService::send_file: the result, whether
the sendMail POST was made, and the payload it carried when made. -/
structure SendFileOutcome where
  result : Except KindleError Unit
  networkCalled : Bool
  payload : Option Email
  deriving DecidableEq

namespace KindleService

/-- kindle_service.rs lines 44-137: read the file, base64-encode it,
derive the attachment name from the final path segment, build the Email
payload (fixed subject, empty Text body, one recipient per configured
address, a single fileAttachment) and POST it; any 2xx status is success,
otherwise the error carries the status and body. -/
def send_file (emails : List String) (env : SendFileEnv) (file_path : String) :
    SendFileOutcome :=
  match env.fileContent with
  | .error e => ⟨.error e, false, none⟩
  | .ok buffer =>
    let content_bytes := String.mk (base64Encode buffer)
    match filename_from_path file_path with
    | .error err => ⟨.error err, false, none⟩
    | .ok filename =>
      let to_recipients : List Recipient := emails.map (fun email => ⟨⟨email⟩⟩)
      let attachment : Attachment :=
        ⟨"#microsoft.graph.fileAttachment", filename,
          "application/octet-stream", content_bytes⟩
      let email_payload : Email :=
        ⟨⟨"Your Kindle File", ⟨"Text", ""⟩, to_recipients, [attachment]⟩, true⟩
      if 200 ≤ env.gatewayStatus ∧ env.gatewayStatus < 300 then
        ⟨.ok (), true, some email_payload⟩
      else
        ⟨.error ⟨"Failed to send email: " ++ toString env.gatewayStatus ++ " "
            ++ env.gatewayBody⟩, true, some email_payload⟩

end KindleService

/-- Per-file environment of the loop in SendService::send_files: the path
as enumerated, the outcome the kindle service send would return for this
file, and the outcome move_file would return should it be attempted. -/
structure FileEnv where
  path : String
  sendResult : Except KindleError Unit
  moveResult : Except KindleError Unit
  deriving DecidableEq

/-- send_service.rs lines 77-117: the per-file loop. Returns the success
count, the failure count, and the paths moved to the sent directory, in
enumeration order. A successful send followed by a successful move counts
one success; a failed move after a successful send, or a failed send,
counts one failure and moves nothing; the loop never terminates early. -/
def processFiles : List FileEnv → Nat × Nat × List String
  | [] => (0, 0, [])
  | f :: rest =>
    let r := processFiles rest
    match f.sendResult with
    | .ok _ =>
      match f.moveResult with
      | .ok _ => (r.1 + 1, r.2.1, f.path :: r.2.2)
      | .error _ => (r.1, r.2.1 + 1, r.2.2)
    | .error _ => (r.1, r.2.1 + 1, r.2.2)

/-- Environment of one call to SendService::send_files: the outcome of
list_file_in_directory, and the authentication environment handed to
AzureService::authenticate should authentication run. -/
structure SendFilesEnv where
  listResult : Except KindleError (List FileEnv)
  auth : AuthEnv

/-- Observable outcome of SendService::send_files: the returned result,
the final counters, the paths moved, and the authentication side effects
(authInvoked is false when authenticate was never called, and then every
authentication effect field is inert). -/
structure SendFilesOutcome where
  result : Except KindleError Unit
  successCount : Nat
  failureCount : Nat
  moved : List String
  authInvoked : Bool
  tokenWrites : List TokenResponse
  refreshCalled : Bool
  exchangeCalled : Bool
  listenerStarted : Bool
  deriving DecidableEq

namespace SendService

/-- send_service.rs lines 58-131: list the files; an empty list returns Ok
at once with no authentication (lines 66-69); otherwise authenticate once,
propagating its error; then run the per-file loop and return an error iff
the failure count is positive (lines 124-128). -/
def send_files (env : SendFilesEnv) : SendFilesOutcome :=
  match env.listResult with
  | .error e => ⟨.error e, 0, 0, [], false, [], false, false, false⟩
  | .ok files =>
    if files.isEmpty then ⟨.ok (), 0, 0, [], false, [], false, false, false⟩
    else
      let a := AzureService.authenticate env.auth
      match a.result with
      | .error e =>
          ⟨.error e, 0, 0, [], true, a.writes, a.refreshCalled,
            a.exchangeCalled, a.listenerStarted⟩
      | .ok _token =>
        let r := processFiles files
        ⟨if r.2.1 > 0 then
            .error ⟨"Failed to process " ++ toString r.2.1 ++ " files"⟩
          else .ok (),
          r.1, r.2.1, r.2.2, true, a.writes, a.refreshCalled,
          a.exchangeCalled, a.listenerStarted⟩

end SendService

/-- commands/send.rs lines 18-56: read the configuration (its outcome is
passed in as configResult), propagate a configuration error, otherwise run
send_files and return its result. -/
def execute_send_command (configResult : Except KindleError Unit)
    (env : SendFilesEnv) : Except KindleError Unit :=
  match configResult with
  | .error e => .error e
  | .ok _ => (SendService.send_files env).result

/-- main.rs lines 45-52: the process exits with code 1 when the send
command returns an error, and with code 0 otherwise. -/
def mainExitCode (configResult : Except KindleError Unit)
    (env : SendFilesEnv) : Nat :=
  match execute_send_command configResult env with
  | .ok _ => 0
  | .error _ => 1

/-- Whether an Except value is the ok constructor. -/
def isOkResult {ε α : Type} : Except ε α → Bool
  | .ok _ => true
  | .error _ => false

/-! Concrete inputs used by witnesses and counterexamples. -/

/-- A credential whose expiry lies in the future of the sample clock 100. -/
def validToken : TokenResponse :=
  ⟨"cachedtok", some "rtok", none, 3600, "Bearer", some 1000⟩

/-- A credential expired at the sample clock 100, carrying a refresh token. -/
def expiredToken : TokenResponse :=
  ⟨"oldtok", some "rtok", none, 3600, "Bearer", some 0⟩

/-- A token-endpoint wire response: the endpoint sends no expires_at field,
so the deserialized record has none there (the serde Option default). -/
def wireToken : TokenResponse :=
  ⟨"newtok", some "rtok2", none, 3600, "Bearer", none⟩

/-- Expired credential with a refresh token, refresh call fails. -/
def refreshFailEnv : AuthEnv :=
  ⟨.ok expiredToken, 100, .error "server unreachable", .ok "authcode",
    .ok wireToken, 100, .ok ()⟩

/-- Expired credential with a refresh token, refresh call succeeds and
returns the wire response, file write succeeds. -/
def refreshOkEnv : AuthEnv :=
  ⟨.ok expiredToken, 100, .ok wireToken, .error (), .error "unused", 100, .ok ()⟩

/-- A still-valid cached credential; every network outcome is poisoned so
that any network use would be visible. -/
def cachedOkEnv : AuthEnv :=
  ⟨.ok validToken, 100, .error "unused", .error (), .error "unused", 0, .ok ()⟩

/-- Directory listing comes back empty. -/
def emptyListEnv : SendFilesEnv := ⟨.ok [], cachedOkEnv⟩

/-- A file whose send and move both succeed. -/
def fileOkA : FileEnv := ⟨"books/a.epub", .ok (), .ok ()⟩

/-- A file whose send fails at the gateway. -/
def fileBadB : FileEnv := ⟨"books/b.epub", .error ⟨"gateway 413"⟩, .ok ()⟩

/-- Another file whose send and move both succeed. -/
def fileOkC : FileEnv := ⟨"books/c.epub", .ok (), .ok ()⟩

/-- A batch where the middle file fails to send. -/
def batchEnv : SendFilesEnv := ⟨.ok [fileOkA, fileBadB, fileOkC], cachedOkEnv⟩

/-- A batch of one file that fully succeeds. -/
def allOkEnv : SendFilesEnv := ⟨.ok [fileOkA], cachedOkEnv⟩

/-- A send-file environment with readable content and an accepting gateway. -/
def sendOkEnv : SendFileEnv := ⟨.ok [1, 2, 3], 202, ""⟩

/-! Helper lemmas about the base64 alphabet. -/

theorem b64_char_roundtrip_fin :
    ∀ t : Fin 64, b64DecChar (b64Char t.val) = some t.val := by decide

theorem b64_char_no_pad_fin : ∀ t : Fin 64, b64Char t.val ≠ '=' := by decide

theorem b64DecChar_b64Char {s : Nat} (hs : s < 64) :
    b64DecChar (b64Char s) = some s :=
  b64_char_roundtrip_fin ⟨s, hs⟩

theorem b64Char_ne_pad {s : Nat} (hs : s < 64) : b64Char s ≠ '=' :=
  b64_char_no_pad_fin ⟨s, hs⟩

/-- Claim C9: for every byte sequence, decoding the standard-alphabet
base64 encoding produced for the attachment content reproduces the
original bytes exactly. -/
theorem base64_roundtrip (bs : List Nat) (h : ∀ b ∈ bs, b < 256) :
    base64Decode (base64Encode bs) = some bs := by
  revert h
  induction bs using base64Encode.induct with
  | case1 => intro h; rfl
  | case2 b1 =>
      intro h
      have hb1 : b1 < 256 := h b1 (by simp)
      simp only [base64Encode, base64Decode]
      rw [if_pos (by simp),
        b64DecChar_b64Char (show b1 / 4 < 64 by omega),
        b64DecChar_b64Char (show b1 % 4 * 16 < 64 by omega)]
      simp only [Option.bind]
      rw [if_pos (show b1 % 4 * 16 % 16 = 0 by omega)]
      simp only [Option.some.injEq, List.cons.injEq]
      exact ⟨by omega, trivial⟩
  | case3 b1 b2 =>
      intro h
      have hb1 : b1 < 256 := h b1 (by simp)
      have hb2 : b2 < 256 := h b2 (by simp)
      have h3 : b2 % 16 * 4 < 64 := by omega
      simp only [base64Encode, base64Decode]
      rw [if_neg (fun hc => b64Char_ne_pad h3 hc.1), if_pos (by simp),
        b64DecChar_b64Char (show b1 / 4 < 64 by omega),
        b64DecChar_b64Char (show b1 % 4 * 16 + b2 / 16 < 64 by omega),
        b64DecChar_b64Char h3]
      simp only [Option.bind]
      rw [if_pos (show b2 % 16 * 4 % 4 = 0 by omega)]
      simp only [Option.some.injEq, List.cons.injEq]
      exact ⟨by omega, by omega, trivial⟩
  | case4 b1 b2 b3 rest ih =>
      intro h
      have hb1 : b1 < 256 := h b1 (by simp)
      have hb2 : b2 < 256 := h b2 (by simp)
      have hb3 : b3 < 256 := h b3 (by simp)
      have hrest : base64Decode (base64Encode rest) = some rest :=
        ih (fun b hb => h b (by simp [hb]))
      have h3 : b2 % 16 * 4 + b3 / 64 < 64 := by omega
      have h4 : b3 % 64 < 64 := by omega
      simp only [base64Encode, base64Decode]
      rw [if_neg (fun hc => b64Char_ne_pad h3 hc.1),
        if_neg (fun hc => b64Char_ne_pad h4 hc.1),
        b64DecChar_b64Char (show b1 / 4 < 64 by omega),
        b64DecChar_b64Char (show b1 % 4 * 16 + b2 / 16 < 64 by omega),
        b64DecChar_b64Char h3, b64DecChar_b64Char h4, hrest]
      simp only [Option.bind]
      simp only [Option.some.injEq, List.cons.injEq]
      exact ⟨by omega, by omega, by omega, trivial⟩

/-- Claim C9 witness: round trip at a concrete byte sequence. -/
theorem base64_roundtrip_witness :
    base64Decode (base64Encode [75, 105, 110, 33]) = some [75, 105, 110, 33] :=
  base64_roundtrip [75, 105, 110, 33] (by decide)

/-- Claim C7: is_token_valid is false whenever expires_at is absent, and
true exactly when expires_at is present and now is strictly below it. -/
theorem is_token_valid_spec (t : TokenResponse) (now : Int) :
    (t.expires_at = none → t.is_token_valid now = false) ∧
    (t.is_token_valid now = true ↔ ∃ e, t.expires_at = some e ∧ now < e) := by
  constructor
  · intro hnone
    simp [TokenResponse.is_token_valid, hnone]
  · cases he : t.expires_at with
    | none => simp [TokenResponse.is_token_valid, he]
    | some e => simp [TokenResponse.is_token_valid, he]

/-- Helper: isOkResult on the ok constructor. -/
theorem isOkResult_ok {e a : Type} (x : a) : isOkResult (ε := e) (.ok x) = true := rfl

/-- Helper: isOkResult on the error constructor. -/
theorem isOkResult_error {e a : Type} (y : e) : isOkResult (α := a) (.error y) = false := rfl

/-- Helper: the interactive flow always spawns the local listener, on every
one of its outcomes. -/
theorem interactiveFlow_listener (env : AuthEnv) :
    (AzureService.interactiveFlow env).listenerStarted = true := by
  cases h1 : env.authCodeResult with
  | error e => simp [AzureService.interactiveFlow, h1]
  | ok c =>
    cases h2 : env.exchangeResult with
    | error e => simp [AzureService.interactiveFlow, h1, h2]
    | ok tr =>
      cases h3 : env.writeResult with
      | error e => simp [AzureService.interactiveFlow, h1, h2, h3]
      | ok u => simp [AzureService.interactiveFlow, h1, h2, h3]

/-- Claim C3: a stored credential whose expiry is strictly in the future is
returned immediately: no token-endpoint call, no listener, no write. -/
theorem authenticate_cached_valid (env : AuthEnv) (tr : TokenResponse)
    (hread : env.readResult = .ok tr)
    (hvalid : tr.is_token_valid env.now = true) :
    AzureService.authenticate env =
      ⟨.ok tr.access_token, [], false, false, false⟩ := by
  unfold AzureService.authenticate
  rw [hread]
  simp [hvalid]

/-- Claim C3 witness: the concrete valid cached credential is returned
with no effects at all. -/
theorem authenticate_cached_valid_witness :
    AzureService.authenticate cachedOkEnv =
      ⟨.ok "cachedtok", [], false, false, false⟩ :=
  authenticate_cached_valid cachedOkEnv validToken rfl rfl

/-- Claim C1 counterexample: an expired stored credential carries a refresh
token and the refresh call fails; authenticate returns an error without
ever starting the interactive flow (no listener, no code exchange), which
refutes the claimed fallthrough. -/
theorem refresh_failure_no_fallthrough_cex :
    (AzureService.authenticate refreshFailEnv).listenerStarted = false ∧
    (AzureService.authenticate refreshFailEnv).exchangeCalled = false ∧
    (AzureService.authenticate refreshFailEnv).result =
      .error ⟨"Error refreshing token: " ++ "server unreachable"⟩ :=
  ⟨rfl, rfl, rfl⟩

/-- Claim C1 amended: a failed refresh makes the whole operation fail with
an error instead of falling through, and the interactive flow is invoked
if and only if the stored credential cannot be read, or it reads back
invalid and carries no refresh token. -/
theorem authenticate_interactive_iff (env : AuthEnv) :
    ((AzureService.authenticate env).listenerStarted = true ↔
      ((∃ e, env.readResult = .error e) ∨
        (∃ tr, env.readResult = .ok tr ∧ tr.is_token_valid env.now = false ∧
          tr.refresh_token = none))) ∧
    (∀ tr rt e, env.readResult = .ok tr → tr.is_token_valid env.now = false →
      tr.refresh_token = some rt → env.refreshResult = .error e →
      AzureService.authenticate env =
        ⟨.error ⟨"Error refreshing token: " ++ e⟩, [], true, false, false⟩) := by
  constructor
  · cases hr : env.readResult with
    | error e =>
        simp [AzureService.authenticate, hr, interactiveFlow_listener]
    | ok tr =>
      cases hv : tr.is_token_valid env.now with
      | true => simp [AzureService.authenticate, hr, hv]
      | false =>
        cases hrt : tr.refresh_token with
        | none =>
            simp [AzureService.authenticate, hr, hv, hrt,
              interactiveFlow_listener]
        | some rt =>
          cases hrf : env.refreshResult with
          | error e =>
              simp [AzureService.authenticate, hr, hv, hrt, hrf]
          | ok ntr =>
            cases hw : env.writeResult with
            | error e2 =>
                simp [AzureService.authenticate, hr, hv, hrt, hrf, hw]
            | ok u =>
                simp [AzureService.authenticate, hr, hv, hrt, hrf, hw]
  · intro tr rt e hr hv hrt hrf
    unfold AzureService.authenticate
    rw [hr]
    simp [hv, hrt, hrf]

/-- Claim C2, evaluated at the failing input: a successful refresh of an
expired credential persists the wire response exactly as the endpoint
returned it — the token endpoint sends no expires_at field, so the
persisted credential has none — and no refresh-time-plus-expires_in stamp
is applied on this path (the interactive path stamps at line 141; the
refresh path, lines 80-93, does not). -/
theorem refresh_persists_unstamped_expiry :
    AzureService.authenticate refreshOkEnv =
      ⟨.ok "newtok", [wireToken], true, false, false⟩ ∧
    (AzureService.authenticate refreshOkEnv).writes.map TokenResponse.expires_at
      = [none] :=
  ⟨rfl, rfl⟩

/-- Claim C4: an empty enumeration returns success immediately with zero
counts, and authentication never runs: no credential write, no
token-endpoint call, no listener. -/
theorem send_files_empty_no_auth (env : SendFilesEnv)
    (h : env.listResult = .ok []) :
    SendService.send_files env =
      ⟨.ok (), 0, 0, [], false, [], false, false, false⟩ := by
  unfold SendService.send_files
  rw [h]
  simp

/-- Claim C4 witness: the concrete empty enumeration. -/
theorem send_files_empty_no_auth_witness :
    SendService.send_files emptyListEnv =
      ⟨.ok (), 0, 0, [], false, [], false, false, false⟩ :=
  send_files_empty_no_auth emptyListEnv rfl

/-- Helper: the per-file loop distributes over list concatenation. -/
theorem processFiles_append (l1 l2 : List FileEnv) :
    processFiles (l1 ++ l2) =
      ((processFiles l1).1 + (processFiles l2).1,
        (processFiles l1).2.1 + (processFiles l2).2.1,
        (processFiles l1).2.2 ++ (processFiles l2).2.2) := by
  induction l1 with
  | nil => simp [processFiles]
  | cons f rest ih =>
    cases hs : f.sendResult with
    | error e =>
        simp [processFiles, hs, ih, Prod.ext_iff]
        omega
    | ok u =>
      cases hm : f.moveResult with
      | error e =>
          simp [processFiles, hs, hm, ih, Prod.ext_iff]
          omega
      | ok v =>
          simp [processFiles, hs, hm, ih, Prod.ext_iff]
          omega

/-- Helper: the shape of send_files when the listing is non-empty and
authentication succeeds. -/
theorem send_files_authOk (env : SendFilesEnv) (files : List FileEnv)
    (tok : String) (hlist : env.listResult = .ok files)
    (hne : files.isEmpty = false)
    (hauth : (AzureService.authenticate env.auth).result = .ok tok) :
    SendService.send_files env =
      ⟨if (processFiles files).2.1 > 0 then
          .error ⟨"Failed to process " ++ toString (processFiles files).2.1
            ++ " files"⟩
        else .ok (),
        (processFiles files).1, (processFiles files).2.1,
        (processFiles files).2.2, true,
        (AzureService.authenticate env.auth).writes,
        (AzureService.authenticate env.auth).refreshCalled,
        (AzureService.authenticate env.auth).exchangeCalled,
        (AzureService.authenticate env.auth).listenerStarted⟩ := by
  unfold SendService.send_files
  rw [hlist]
  simp [hne, hauth]

/-- Helper: the shape of send_files when the listing is non-empty and
authentication fails. -/
theorem send_files_authErr (env : SendFilesEnv) (files : List FileEnv)
    (e : KindleError) (hlist : env.listResult = .ok files)
    (hne : files.isEmpty = false)
    (hauth : (AzureService.authenticate env.auth).result = .error e) :
    SendService.send_files env =
      ⟨.error e, 0, 0, [], true,
        (AzureService.authenticate env.auth).writes,
        (AzureService.authenticate env.auth).refreshCalled,
        (AzureService.authenticate env.auth).exchangeCalled,
        (AzureService.authenticate env.auth).listenerStarted⟩ := by
  unfold SendService.send_files
  rw [hlist]
  simp [hne, hauth]

/-- Claim C5: in a batch where some file K fails to send, every other file
before and after K still contributes its own outcome (no early
termination), the failure count picks up exactly one extra unit for K, and
K is absent from the relocated files. -/
theorem send_failure_continues (env : SendFilesEnv) (pre post : List FileEnv)
    (f : FileEnv) (err : KindleError) (tok : String)
    (hlist : env.listResult = .ok (pre ++ f :: post))
    (hsend : f.sendResult = .error err)
    (hauth : (AzureService.authenticate env.auth).result = .ok tok) :
    (SendService.send_files env).successCount
        = (processFiles pre).1 + (processFiles post).1 ∧
    (SendService.send_files env).failureCount
        = (processFiles pre).2.1 + 1 + (processFiles post).2.1 ∧
    (SendService.send_files env).moved
        = (processFiles pre).2.2 ++ (processFiles post).2.2 := by
  have hne : (pre ++ f :: post).isEmpty = false := by
    cases pre <;> simp [List.isEmpty]
  have hshape := send_files_authOk env (pre ++ f :: post) tok hlist hne hauth
  have hmid : processFiles (f :: post) =
      ((processFiles post).1, (processFiles post).2.1 + 1,
        (processFiles post).2.2) := by
    simp [processFiles, hsend]
  rw [hshape]
  simp [processFiles_append, hmid]
  omega

/-- Claim C5 witness: in the concrete three-file batch whose middle file
fails, both neighbours are processed and moved, and one failure is
counted. -/
theorem send_failure_continues_witness :
    (SendService.send_files batchEnv).successCount = 2 ∧
    (SendService.send_files batchEnv).failureCount = 1 ∧
    (SendService.send_files batchEnv).moved
      = ["books/a.epub", "books/c.epub"] := by
  have h := send_failure_continues batchEnv [fileOkA] [fileOkC] fileBadB
    ⟨"gateway 413"⟩ "cachedtok" rfl rfl rfl
  exact ⟨h.1, h.2.1, h.2.2⟩

/-- Claim C6: with a non-empty batch, send_files returns an error iff the
aggregate failure count is positive; the process exit code is 0 on full
success and 1 when any file failed or when authentication itself failed. -/
theorem send_files_exit_contract (env : SendFilesEnv) (files : List FileEnv)
    (hlist : env.listResult = .ok files) (hne : files ≠ []) :
    (∀ tok, (AzureService.authenticate env.auth).result = .ok tok →
      (((SendService.send_files env).result = .ok ()) ↔
        (SendService.send_files env).failureCount = 0) ∧
      mainExitCode (.ok ()) env =
        (if (SendService.send_files env).failureCount = 0 then 0 else 1)) ∧
    (∀ e, (AzureService.authenticate env.auth).result = .error e →
      mainExitCode (.ok ()) env = 1) := by
  have hemp : files.isEmpty = false := by
    cases files with
    | nil => exact absurd rfl hne
    | cons a l => rfl
  constructor
  · intro tok hauth
    have hshape := send_files_authOk env files tok hlist hemp hauth
    rw [hshape]
    unfold mainExitCode execute_send_command
    rw [hshape]
    by_cases hf : (processFiles files).2.1 = 0
    · simp [hf]
    · simp [hf, Nat.pos_of_ne_zero hf]
  · intro e hauth
    have hshape := send_files_authErr env files e hlist hemp hauth
    unfold mainExitCode execute_send_command
    rw [hshape]

/-- Claim C6 witness: the concrete fully successful one-file batch exits
with code 0, and its result is Ok with failure count 0. -/
theorem send_files_exit_contract_witness :
    mainExitCode (.ok ()) allOkEnv = 0 := by
  have h := (send_files_exit_contract allOkEnv [fileOkA] rfl
    (by simp)).1 "cachedtok" rfl
  simpa using h.2

/-- Claim C10: every file of the batch contributes exactly one unit to
exactly one of the two counters — so the counters sum to the batch size at
the end of send_files — and the failure counter counts exactly the files
for which the send failed or the relocation after a successful send
failed, the two cases being indistinguishable in the totals. -/
theorem processFiles_totals (files : List FileEnv) (env : SendFilesEnv) :
    ((processFiles files).1 + (processFiles files).2.1 = files.length ∧
      (processFiles files).2.1 =
        (files.filter fun f =>
          !(isOkResult f.sendResult && isOkResult f.moveResult)).length) ∧
    (∀ tok, env.listResult = .ok files →
      (AzureService.authenticate env.auth).result = .ok tok →
      (SendService.send_files env).successCount
          + (SendService.send_files env).failureCount = files.length) := by
  have hmain : (processFiles files).1 + (processFiles files).2.1 = files.length ∧
      (processFiles files).2.1 =
        (files.filter fun f =>
          !(isOkResult f.sendResult && isOkResult f.moveResult)).length := by
    induction files with
    | nil => simp [processFiles]
    | cons f rest ih =>
      cases hs : f.sendResult with
      | error e =>
          simp [processFiles, hs, List.filter_cons, isOkResult_error,
            isOkResult_ok] at ih ⊢
          omega
      | ok u =>
        cases hm : f.moveResult with
        | error e =>
            simp [processFiles, hs, hm, List.filter_cons, isOkResult_ok,
              isOkResult_error] at ih ⊢
            omega
        | ok v =>
            simp [processFiles, hs, hm, List.filter_cons, isOkResult_ok,
              isOkResult_error] at ih ⊢
            omega
  refine ⟨hmain, ?_⟩
  intro tok hlist hauth
  cases hfe : files.isEmpty with
  | true =>
      have : files = [] := by
        cases files with
        | nil => rfl
        | cons a l => exact absurd hfe (by simp)
      subst this
      rw [send_files_empty_no_auth env (by rw [hlist])]
      rfl
  | false =>
      rw [send_files_authOk env files tok hlist hfe hauth]
      exact hmain.1

/-- Claim C8: if the path yields no filename segment the send fails with
that SendError before any network request; whenever a payload is actually
POSTed, its single attachment is named by the final path segment (the
filename extraction runs after the file has been read, so the file-read
outcome is fixed to success in the first part). -/
theorem send_file_attachment_name (emails : List String) (env : SendFileEnv)
    (p : String) :
    (∀ buffer err, env.fileContent = .ok buffer →
        filename_from_path p = .error err →
        KindleService.send_file emails env p = ⟨.error err, false, none⟩) ∧
    (∀ s e, filename_from_path p = .ok s →
        (KindleService.send_file emails env p).payload = some e →
        e.message.attachments.map Attachment.name = [s]) := by
  constructor
  · intro buffer err hb hf
    unfold KindleService.send_file
    rw [hb, hf]
  · intro s e hf hp
    unfold KindleService.send_file at hp
    cases hb : env.fileContent with
    | error e2 =>
        rw [hb] at hp
        simp at hp
    | ok buffer =>
      rw [hb, hf] at hp
      simp at hp
      split at hp <;> (simp only [Option.some.injEq] at hp; subst hp; rfl)

end KindleSender
